import Mathlib

/-!
Verification development for the `lolalytico` scraping client
(`lolalytico/main.py`).  The Python module is shallowly embedded below:
pure string manipulation becomes Lean string functions, the lxml document
tree becomes an inductive rose tree with a structural evaluator for the
absolute XPaths the source uses, and code that can raise becomes
`Except PyErr`.  The page fetcher (`_fetch_tree`, an external HTTP
collaborator) is passed in as a function argument.
-/

namespace Lolalytico

/-! ### String helpers modelling the Python primitives used by the source -/

/-- Python `s.split(sep)[0]` for a one-character separator (the only kind
the source uses): the part of `s` before the first occurrence of `c`. -/
def takeBefore (s : String) (c : Char) : String := ⟨s.data.takeWhile (fun a => a != c)⟩

/-- The whitespace set of Python's `str.strip`. -/
def wsChar (c : Char) : Bool :=
  c == ' ' || c == '\t' || c == '\n' || c == '\r' || c == Char.ofNat 11 || c == Char.ofNat 12

/-- Python `s.strip()`. -/
def pyStrip (s : String) : String :=
  ⟨((s.data.dropWhile wsChar).reverse.dropWhile wsChar).reverse⟩

/-- ASCII lower-casing, Python `s.lower()` for the ASCII inputs used here
(also the exact behaviour of the `translate` call in the damage XPaths,
which maps only A-Z). -/
def lowerChar (c : Char) : Char :=
  if 65 ≤ c.toNat && c.toNat ≤ 90 then Char.ofNat (c.toNat + 32) else c

def lowerStr (s : String) : String := ⟨s.data.map lowerChar⟩

/-- Split a char list at every char satisfying `p`, keeping empty chunks
(Python `str.split(sep)` semantics for a one-char separator). -/
def splitPred (p : Char → Bool) : List Char → List (List Char)
  | [] => [[]]
  | a :: as =>
    if p a then [] :: splitPred p as
    else match splitPred p as with
      | [] => [[a]]
      | h :: t => (a :: h) :: t

/-- Python `s.replace(c, "")` for a one-character pattern. -/
def removeChar (s : String) (c : Char) : String := ⟨s.data.filter (fun a => a != c)⟩

/-- Join strings with a separator (`sep.join(xs)`). -/
def joinSep (sep : String) : List String → String
  | [] => ""
  | x :: xs => xs.foldl (fun acc y => acc ++ sep ++ y) x

/-- Char-list `l` starts with `sub`. -/
def startsW : List Char → List Char → Bool
  | [], _ => true
  | _ :: _, [] => false
  | a :: as, b :: bs => a == b && startsW as bs

/-- `sub` occurs contiguously inside the char list. -/
def hasSub (sub : List Char) : List Char → Bool
  | [] => sub.isEmpty
  | c :: cs => startsW sub (c :: cs) || hasSub sub cs

/-- Python `sub in s` for strings. -/
def strContains (s sub : String) : Bool := hasSub sub.data s.data

/-- Python `s.rstrip("/")`. -/
def rstripSlash (s : String) : String := ⟨(s.data.reverse.dropWhile (· == '/')).reverse⟩

/-- Python `s.lstrip("/")`. -/
def lstripSlash (s : String) : String := ⟨s.data.dropWhile (· == '/')⟩

/-- Value of a string of decimal digits (callers below only reach it on
digit-only strings; the empty string gives 0 exactly where Python also
yields 0). -/
def digitsToNat (s : String) : Nat := s.data.foldl (fun n c => n * 10 + (c.toNat - 48)) 0

/-- The leading run of digit-or-dot characters, as collected by the
character loop of `_int_from_xpath` (main.py 282-287). -/
def leadingNum (s : String) : String := ⟨s.data.takeWhile (fun c => c.isDigit || c == '.')⟩

/-- Python `int(float(num_str))` restricted to the digit/dot strings the
caller produces: at most one dot means truncation to the integer part;
two or more dots make `float` raise, which `_int_from_xpath` catches and
turns into 0.  (`float`'s loss of precision on astronomically large
literals is not modelled.) -/
def intFromNumStr (s : String) : Nat :=
  if s = "" then 0
  else match splitPred (fun a => a == '.') s.data with
    | [intPart] => digitsToNat ⟨intPart⟩
    | [intPart, _] => digitsToNat ⟨intPart⟩
    | _ => 0

/-! ### The document tree and the XPath fragments the source evaluates -/

/-- A parsed HTML element: its tag, its full text content (what lxml's
`text_content()` returns, i.e. all descendant text already concatenated),
and its children. -/
inductive HNode where
  | mk (tag : String) (content : String) (children : List HNode)

def HNode.tag : HNode → String
  | .mk t _ _ => t

def HNode.content : HNode → String
  | .mk _ c _ => c

def HNode.children : HNode → List HNode
  | .mk _ _ cs => cs

/-- One step of the absolute XPaths used by the source: `tag` selects every
child with that tag, `tag[n]` the n-th such child (1-based). -/
inductive Step where
  | all (tag : String)
  | nth (tag : String) (n : Nat)

/-- The children of `n` carrying `tag`. -/
def childrenTag (n : HNode) (tag : String) : List HNode :=
  n.children.filter (fun c => c.tag == tag)

/-- Apply one location step to every context node; `tag[n]` applies its
positional predicate per context node, as XPath does. -/
def evalStep : List HNode → Step → List HNode
  | [], _ => []
  | n :: ns, .all tag => childrenTag n tag ++ evalStep ns (.all tag)
  | n :: ns, .nth tag k => ((childrenTag n tag).drop (k - 1)).take 1 ++ evalStep ns (.nth tag k)

/-- `tree.xpath(path)` for the absolute paths of the source: fold the steps
starting from the document root. -/
def xpathEval (root : HNode) (p : List Step) : List HNode := p.foldl evalStep [root]

/-- The exceptions the embedded code paths can raise.  `indexError` is
Python's bare `IndexError` produced by `xs[0]` on an empty xpath result:
it carries no field name and no row index. -/
inductive PyErr where
  | invalidRank (raw : String)
  | invalidLane (raw : String)
  | valueError (msg : String)
  | indexError
deriving DecidableEq

/-- `nodes[0]`: the first element, or IndexError on an empty list. -/
def firstNode : List HNode → Except PyErr HNode
  | [] => .error .indexError
  | n :: _ => .ok n

/-! ### Lexicon tables (`display_ranks` / `display_lanes`, main.py 12-107) -/

/-- The `rank_mappings` dict literal of `display_ranks` (main.py 13-79), in
source order; the `display=True` printing side effect is omitted. -/
def display_ranks : List (String × String) := [
  ("", ""),
  ("challenger", "challenger"),
  ("chall", "challenger"),
  ("c", "challenger"),
  ("grandmaster_plus", "grandmaster_plus"),
  ("grandmaster+", "grandmaster_plus"),
  ("gm+", "grandmaster_plus"),
  ("grandmaster", "grandmaster"),
  ("grandm", "grandmaster"),
  ("gm", "grandmaster"),
  ("master_plus", "master_plus"),
  ("master+", "master_plus"),
  ("mast+", "master_plus"),
  ("m+", "master_plus"),
  ("master", "master"),
  ("mast", "master"),
  ("m", "master"),
  ("diamond_plus", "diamond_plus"),
  ("diamond+", "diamond_plus"),
  ("diam+", "diamond_plus"),
  ("dia+", "diamond_plus"),
  ("d+", "diamond_plus"),
  ("diamond", "diamond"),
  ("diam", "diamond"),
  ("dia", "diamond"),
  ("d", "diamond"),
  ("emerald", "emerald"),
  ("eme", "emerald"),
  ("em", "emerald"),
  ("e", "emerald"),
  ("platinum+", "platinum_plus"),
  ("plat+", "platinum_plus"),
  ("pl+", "platinum_plus"),
  ("p+", "platinum_plus"),
  ("platinum", "platinum"),
  ("plat", "platinum"),
  ("pl", "platinum"),
  ("p", "platinum"),
  ("gold_plus", "gold_plus"),
  ("gold+", "gold_plus"),
  ("g+", "gold_plus"),
  ("gold", "gold"),
  ("g", "gold"),
  ("silver", "silver"),
  ("silv", "silver"),
  ("s", "silver"),
  ("bronze", "bronze"),
  ("br", "bronze"),
  ("b", "bronze"),
  ("iron", "iron"),
  ("i", "iron"),
  ("unranked", "unranked"),
  ("unrank", "unranked"),
  ("unr", "unranked"),
  ("un", "unranked"),
  ("none", "unranked"),
  ("null", "unranked"),
  ("-", "unranked"),
  ("all", "all"),
  ("otp", "1trick"),
  ("1trick", "1trick"),
  ("1-trick", "1trick"),
  ("1trickpony", "1trick"),
  ("onetrickpony", "1trick"),
  ("onetrick", "1trick")]

/-- The `lane_mappings` dict literal of `display_lanes` (main.py 88-102). -/
def display_lanes : List (String × String) := [
  ("", ""),
  ("top", "top"),
  ("jg", "jungle"),
  ("jng", "jungle"),
  ("jungle", "jungle"),
  ("mid", "middle"),
  ("middle", "middle"),
  ("bottom", "bottom"),
  ("bot", "bottom"),
  ("adc", "bottom"),
  ("support", "support"),
  ("supp", "support"),
  ("sup", "support")]

/-- Python dict lookup `mapping[key]`; the tables above have no duplicate
keys, so first-match lookup coincides with dict semantics. -/
def dictGet (m : List (String × String)) (k : String) : Option String :=
  (m.find? (fun p => p.1 == k)).map (fun p => p.2)

/-- `LolalyticsClient._map_rank` (main.py 152-158): lower-case, look up,
KeyError becomes `InvalidRank` carrying the raw input. -/
def _map_rank (rank : String) : Except PyErr String :=
  match dictGet display_ranks (lowerStr rank) with
  | some v => .ok v
  | none => .error (.invalidRank rank)

/-- `LolalyticsClient._map_lane` (main.py 160-166). -/
def _map_lane (lane : String) : Except PyErr String :=
  match dictGet display_lanes (lowerStr lane) with
  | some v => .ok v
  | none => .error (.invalidLane lane)

/-! ### Query builder (`_build_url`, main.py 168-178) -/

/-- `urllib.parse.quote_plus` restricted to ASCII input: alphanumerics and
`_.-~` pass through, a space becomes `+`, anything else `%XX` (upper-case
hex).  The canonical tokens fed to it below are all in the safe set. -/
def hexChar (n : Nat) : Char := if n < 10 then Char.ofNat (48 + n) else Char.ofNat (55 + n)

def quotePlus (s : String) : String :=
  s.data.foldl (fun acc c =>
    if c == ' ' then acc ++ "+"
    else if c.isAlphanum || c == '_' || c == '.' || c == '-' || c == '~' then acc.push c
    else acc ++ "%" ++ ⟨[hexChar (c.toNat / 16 % 16), hexChar (c.toNat % 16)]⟩) ""

/-- `urllib.parse.urlencode` on an insertion-ordered dict. -/
def urlencode (params : List (String × String)) : String :=
  joinSep "&" (params.map (fun p => quotePlus p.1 ++ "=" ++ quotePlus p.2))

/-- `urllib.parse.urljoin` modelled for the only case the client produces:
an absolute base ending in `/` joined with a relative path (no scheme, no
leading `/`, no dot segments), where the result is plain concatenation. -/
def urljoin (base rel : String) : String := base ++ rel

/-- `LolalyticsClient.__init__` (main.py 129):
`self.base_url = base_url.rstrip("/") + "/"`. -/
def clientBase (base_url : String) : String := rstripSlash base_url ++ "/"

/-- `LolalyticsClient._build_url` (main.py 168-178): parameters are inserted
lane first, then tier; empty strings add no parameter. -/
def _build_url (base_url path lane rank : String) : Except PyErr String := do
  let laneP : List (String × String) ← if lane = "" then pure [] else do
    let l ← _map_lane lane
    pure [("lane", l)]
  let rankP : List (String × String) ← if rank = "" then pure [] else do
    let r ← _map_rank rank
    pure [("tier", r)]
  let params := laneP ++ rankP
  let url := urljoin base_url (lstripSlash path)
  if params.isEmpty then
    pure url
  else
    let sep := if strContains url "?" then "&" else "?"
    pure (url ++ sep ++ urlencode params)

/-! ### Tier list (`get_tierlist`, main.py 188-217) -/

structure TierEntry where
  rank : String
  champion : String
  tier : String
  winrate : String
  pbi : String
deriving DecidableEq

/-- XPath f"/html/body/main/div[6]/div[{i}]/div[1]". -/
def rank_xpath (i : Nat) : List Step :=
  [.all "html", .all "body", .all "main", .nth "div" 6, .nth "div" i, .nth "div" 1]

/-- XPath f"/html/body/main/div[6]/div[{i}]/div[3]/a". -/
def champion_xpath (i : Nat) : List Step :=
  [.all "html", .all "body", .all "main", .nth "div" 6, .nth "div" i, .nth "div" 3, .all "a"]

/-- XPath f"/html/body/main/div[6]/div[{i}]/div[4]". -/
def tier_xpath (i : Nat) : List Step :=
  [.all "html", .all "body", .all "main", .nth "div" 6, .nth "div" i, .nth "div" 4]

/-- XPath f"/html/body/main/div[6]/div[{i}]/div[6]/div/span[1]". -/
def winrate_xpath (i : Nat) : List Step :=
  [.all "html", .all "body", .all "main", .nth "div" 6, .nth "div" i, .nth "div" 6,
   .all "div", .nth "span" 1]

/-- XPath f"/html/body/main/div[6]/div[{i}]/div[8]/div" (the soft PBI column). -/
def pbi_xpath (i : Nat) : List Step :=
  [.all "html", .all "body", .all "main", .nth "div" 6, .nth "div" i, .nth "div" 8, .all "div"]

/-- One iteration of the `get_tierlist` loop body (main.py 202-216): four
hard lookups in source order, then the `try/except IndexError` around the
PBI lookup that substitutes the empty string. -/
def tierRowAt (tree : HNode) (i : Nat) : Except PyErr TierEntry := do
  let r ← firstNode (xpathEval tree (rank_xpath i))
  let champ ← firstNode (xpathEval tree (champion_xpath i))
  let tier ← firstNode (xpathEval tree (tier_xpath i))
  let wr ← firstNode (xpathEval tree (winrate_xpath i))
  let pbi := match firstNode (xpathEval tree (pbi_xpath i)) with
    | .ok node => pyStrip node.content
    | .error _ => ""
  pure ⟨pyStrip r.content, pyStrip champ.content, pyStrip tier.content, pyStrip wr.content, pbi⟩

def tierRows (tree : HNode) : List Nat → Except PyErr (List TierEntry)
  | [] => pure []
  | i :: is => do
    let e ← tierRowAt tree i
    let rest ← tierRows tree is
    pure (e :: rest)

/-- `LolalyticsClient.get_tierlist` (main.py 188-217); `range(3, n + 3)`
is `List.range' 3 n`.  `fetch` stands for `self._fetch_tree`. -/
def get_tierlist (base_url : String) (fetch : String → Except PyErr HNode)
    (n : Nat) (lane rank : String) : Except PyErr (List TierEntry) := do
  let url ← _build_url base_url "lol/tierlist/" lane rank
  let tree ← fetch url
  tierRows tree (List.range' 3 n)

/-! ### Counters (`get_counters`, main.py 219-234) -/

structure CounterEntry where
  champion : String
  winrate : String
deriving DecidableEq

/-- XPath f"/html/body/main/div[6]/div[1]/div[2]/span[{i}]/div[1]/a/div/div[1]". -/
def counters_champion_xpath (i : Nat) : List Step :=
  [.all "html", .all "body", .all "main", .nth "div" 6, .nth "div" 1, .nth "div" 2,
   .nth "span" i, .nth "div" 1, .all "a", .all "div", .nth "div" 1]

/-- XPath f"/html/body/main/div[6]/div[1]/div[2]/span[{i}]/div[1]/a/div/div[2]/div". -/
def counters_winrate_xpath (i : Nat) : List Step :=
  [.all "html", .all "body", .all "main", .nth "div" 6, .nth "div" 1, .nth "div" 2,
   .nth "span" i, .nth "div" 1, .all "a", .all "div", .nth "div" 2, .all "div"]

/-- One iteration of the `get_counters` loop body (main.py 229-233); the
winrate text is stripped and cut at the first `%`. -/
def counterRowAt (tree : HNode) (i : Nat) : Except PyErr CounterEntry := do
  let c ← firstNode (xpathEval tree (counters_champion_xpath i))
  let w ← firstNode (xpathEval tree (counters_winrate_xpath i))
  pure ⟨pyStrip c.content, takeBefore (pyStrip w.content) '%'⟩

def counterRows (tree : HNode) : List Nat → Except PyErr (List CounterEntry)
  | [] => pure []
  | i :: is => do
    let e ← counterRowAt tree i
    let rest ← counterRows tree is
    pure (e :: rest)

/-- `LolalyticsClient.get_counters` (main.py 219-234): the empty-champion
check precedes every other step, so the result never depends on `fetch`
when `champion` is empty. -/
def get_counters (base_url : String) (fetch : String → Except PyErr HNode)
    (n : Nat) (champion rank : String) : Except PyErr (List CounterEntry) := do
  if champion = "" then throw (.valueError "Champion name cannot be empty")
  let champion := lowerStr champion
  let path := s!"lol/{champion}/counters/"
  let url ← _build_url base_url path "" rank
  let tree ← fetch url
  counterRows tree (List.range' 1 n)

/-! ### Champion build data (`get_champion_data`, main.py 236-320) -/

def stat_labels : List String :=
  ["winrate", "wr_delta", "game_avg_wr", "pickrate", "tier", "rank", "banrate", "games"]

/-- XPath f"/html/body/main/div[5]/div[1]/div[2]/div[2]/div[{(i // 5) + 1}]/div[{((i - 1) % 4) + 1}]/div[1]". -/
def stat_xpath (i : Nat) : List Step :=
  [.all "html", .all "body", .all "main", .nth "div" 5, .nth "div" 1, .nth "div" 2,
   .nth "div" 2, .nth "div" (i / 5 + 1), .nth "div" ((i - 1) % 4 + 1), .nth "div" 1]

/-- One iteration of the stats loop (main.py 255-262): hard lookup, strip,
cut at the first newline. -/
def statAt (tree : HNode) (i : Nat) : Except PyErr String := do
  let node ← firstNode (xpathEval tree (stat_xpath i))
  pure (takeBefore (pyStrip node.content) '\n')

def statsRows (tree : HNode) : List Nat → Except PyErr (List String)
  | [] => pure []
  | i :: is => do
    let v ← statAt tree i
    let rest ← statsRows tree is
    pure (v :: rest)

/-- XPath `normalize-space(.)`: whitespace runs collapsed to single spaces,
both ends trimmed. -/
def normSpace (s : String) : String :=
  joinSep " " (((splitPred wsChar s.data).map (fun l => (⟨l⟩ : String))).filter (fun w => w != ""))

/-- The node test of the damage XPaths (main.py 266-269): a `div` whose
text content, space-normalized and lower-cased (the `translate` call maps
only A-Z, exactly `String.toLower`'s ASCII behaviour), contains `label`. -/
def labelHit (label : String) (c : HNode) : Bool :=
  c.tag == "div" && strContains (lowerStr (normSpace c.content)) label

/-- `following-sibling::div[1]`: the first `div` among the listed following
siblings. -/
def firstDiv : List HNode → List HNode
  | [] => []
  | c :: cs => if c.tag == "div" then [c] else firstDiv cs

/-- Matches of the label predicate among `children`, each replaced by its
first following `div` sibling. -/
def labelMatches (label : String) : List HNode → List HNode
  | [] => []
  | c :: cs => (if labelHit label c then firstDiv cs else []) ++ labelMatches label cs

/-- All nodes of a forest, pre-order. -/
def allNodes : List HNode → List HNode
  | [] => []
  | .mk t c kids :: ns => .mk t c kids :: (allNodes kids ++ allNodes ns)

/-- XPath `//div[contains(translate(normalize-space(.), ...), label)]`
`/following-sibling::div[1]` over the whole document. -/
def labelXpath (root : HNode) (label : String) : List HNode :=
  (allNodes [root]).foldr (fun p acc => labelMatches label p.children ++ acc) []

/-- `_int_from_xpath` (main.py 271-293), applied to the xpath node list:
strip, cut at the first newline, strip again, drop thousands separators,
keep the leading digit/dot run, parse; every failure path yields 0. -/
def _int_from_xpath (nodes : List HNode) : Nat :=
  match nodes with
  | [] => 0
  | node :: _ =>
    let text := pyStrip node.content
    let text := pyStrip (takeBefore text '\n')
    let text := removeChar text ','
    intFromNumStr (leadingNum text)

/-- Python `a or b` on ints: `a` unless it is 0 (falsy), as in
`tot = _int_from_xpath(total_xpath) or (phys + mag + tru)` (main.py 298). -/
def pyOr (a b : Nat) : Nat := if a = 0 then b else a

/-- `round(part / whole * 100, 1)` in tenths: round-half-even on the exact
rational, which agrees with Python's float rounding for inputs away from
representation-level ties.  Only reached with `whole > 0`. -/
def roundTenths (part whole : Int) : Int :=
  let num := part * 1000
  let q := Int.ediv num whole
  let r := Int.emod num whole
  if 2 * r < whole then q
  else if whole < 2 * r then q + 1
  else if Int.emod q 2 = 0 then q else q + 1

/-- `str(x)` for the one-decimal floats `round(..., 1)` produces. -/
def fmtTenths (t : Int) : String :=
  let a := t.natAbs
  let s := toString (a / 10) ++ "." ++ toString (a % 10)
  if t < 0 then "-" ++ s else s

/-- The division of `_pct` (main.py 305), the only sub-expression that can
fault (on a zero denominator); `none` stands for the fault. -/
def pctDiv (part whole : Int) : Option String :=
  if whole = 0 then none
  else some (fmtTenths (roundTenths part whole) ++ "%")

/-- `_pct` (main.py 301-307): non-positive denominators are answered with
"0%" before any division; the `except Exception` arm also yields "0%". -/
def _pct (part whole : Int) : String :=
  if whole ≤ 0 then "0%"
  else match pctDiv part whole with
    | some s => s
    | none => "0%"

/-- The `damage_info` dict (main.py 309-317), given the four integers with
`tot` already resolved. -/
structure DamageInfo where
  physical : String
  magic : String
  trueDamage : String
  total : String
  physical_pct : String
  magic_pct : String
  true_pct : String
deriving DecidableEq

def damage_info (phys mag tru tot : Nat) : DamageInfo :=
  { physical := toString phys
    magic := toString mag
    trueDamage := toString tru
    total := toString tot
    physical_pct := _pct (phys : Int) (tot : Int)
    magic_pct := _pct (mag : Int) (tot : Int)
    true_pct := _pct (tru : Int) (tot : Int) }

structure ChampData where
  stats : List (String × String)
  damage : DamageInfo
deriving DecidableEq

/-- `LolalyticsClient.get_champion_data` (main.py 236-320). -/
def get_champion_data (base_url : String) (fetch : String → Except PyErr HNode)
    (champion lane rank : String) : Except PyErr ChampData := do
  if champion = "" then throw (.valueError "Champion name cannot be empty")
  let champion := lowerStr champion
  let path := s!"lol/{champion}/build/"
  let url ← _build_url base_url path lane rank
  let tree ← fetch url
  let vals ← statsRows tree (List.range' 1 8)
  let phys := _int_from_xpath (labelXpath tree "physical damage")
  let mag := _int_from_xpath (labelXpath tree "magic damage")
  let tru := _int_from_xpath (labelXpath tree "true damage")
  let tot := pyOr (_int_from_xpath (labelXpath tree "total damage")) (phys + mag + tru)
  pure ⟨stat_labels.zip vals, damage_info phys mag tru tot⟩

/-! ### Matchup (`matchup`, main.py 322-342) -/

structure MatchupResult where
  winrate : String
  number_of_games : String
deriving DecidableEq

/-- XPath "/html/body/main/div[5]/div[1]/div[2]/div[3]/div/div/div[1]/div[1]". -/
def matchup_winrate_xpath : List Step :=
  [.all "html", .all "body", .all "main", .nth "div" 5, .nth "div" 1, .nth "div" 2,
   .nth "div" 3, .all "div", .all "div", .nth "div" 1, .nth "div" 1]

/-- XPath "/html/body/main/div[5]/div[1]/div[2]/div[3]/div/div/div[2]/div[1]". -/
def matchup_games_xpath : List Step :=
  [.all "html", .all "body", .all "main", .nth "div" 5, .nth "div" 1, .nth "div" 2,
   .nth "div" 3, .all "div", .all "div", .nth "div" 2, .nth "div" 1]

/-- The two hard lookups of `matchup` (main.py 338-342). -/
def matchupExtract (tree : HNode) : Except PyErr MatchupResult := do
  let w ← firstNode (xpathEval tree matchup_winrate_xpath)
  let g ← firstNode (xpathEval tree matchup_games_xpath)
  pure ⟨takeBefore (pyStrip w.content) '%', pyStrip g.content⟩

/-- `LolalyticsClient.matchup` (main.py 322-342). -/
def matchup (base_url : String) (fetch : String → Except PyErr HNode)
    (champion1 champion2 lane rank : String) : Except PyErr MatchupResult := do
  if champion1 = "" ∨ champion2 = "" then throw (.valueError "Champion names cannot be empty")
  let c1 := lowerStr champion1
  let c2 := lowerStr champion2
  let path := s!"lol/{c1}/vs/{c2}/build/"
  let url ← _build_url base_url path lane rank
  let tree ← fetch url
  matchupExtract tree

/-! ### Patch notes (`patch_notes`, main.py 344-382) -/

structure PatchEntry where
  champion : String
  winrate : String
  pickrate : String
  banrate : String
deriving DecidableEq

/-- The steps preceding the row index in
f"/html/body/main/div[5]/div[4]/div[{idx}]/div/div[{i}]": the nodes these
select are the context the probe loop's row counter walks. -/
def patch_ctx_steps (idx : Nat) : List Step :=
  [.all "html", .all "body", .all "main", .nth "div" 5, .nth "div" 4,
   .nth "div" idx, .all "div"]

/-- XPath f"/html/body/main/div[5]/div[4]/div[{idx}]/div/div[{i}]". -/
def patch_base (idx i : Nat) : List Step := patch_ctx_steps idx ++ [.nth "div" i]

/-- XPath f"{base}/div/div[1]/span[1]/a". -/
def patch_champion_xpath (idx i : Nat) : List Step :=
  patch_base idx i ++ [.all "div", .nth "div" 1, .nth "span" 1, .all "a"]

/-- XPath f"{base}/div/div[2]/span". -/
def patch_winrate_xpath (idx i : Nat) : List Step :=
  patch_base idx i ++ [.all "div", .nth "div" 2, .all "span"]

/-- XPath f"{base}/div/div[3]/span[1]". -/
def patch_pickrate_xpath (idx i : Nat) : List Step :=
  patch_base idx i ++ [.all "div", .nth "div" 3, .nth "span" 1]

/-- XPath f"{base}/div/div[3]/span[2]". -/
def patch_banrate_xpath (idx i : Nat) : List Step :=
  patch_base idx i ++ [.all "div", .nth "div" 3, .nth "span" 2]

/-- One probed row of `patch_notes._parse` (main.py 365-376): the four
lookups in source evaluation order; an IndexError is the loop's break
condition. -/
def patchRowAt (tree : HNode) (idx i : Nat) : Except PyErr PatchEntry := do
  let c ← firstNode (xpathEval tree (patch_champion_xpath idx i))
  let w ← firstNode (xpathEval tree (patch_winrate_xpath idx i))
  let p ← firstNode (xpathEval tree (patch_pickrate_xpath idx i))
  let b ← firstNode (xpathEval tree (patch_banrate_xpath idx i))
  pure ⟨pyStrip c.content, pyStrip w.content, pyStrip p.content, pyStrip b.content⟩

/-- The `while True` probe loop of `patch_notes._parse` (main.py 362-378),
made total with a fuel parameter: the theorems below show the collected
rows no longer change once the fuel reaches the first positional miss,
which is where the source loop breaks. -/
def probeLoop (tree : HNode) (idx : Nat) : Nat → Nat → List PatchEntry
  | 0, _ => []
  | fuel + 1, i =>
    match patchRowAt tree idx i with
    | .ok e => e :: probeLoop tree idx fuel (i + 1)
    | .error _ => []

/-- The context nodes whose `div` children the row counter indexes. -/
def patchRowContext (tree : HNode) (idx : Nat) : List HNode :=
  xpathEval tree (patch_ctx_steps idx)

/-- One more than the total `div`-child count of the row context: past this
row index the `div[i]` step selects nothing, so the probe must miss. -/
def patchRowBound (tree : HNode) (idx : Nat) : Nat :=
  ((patchRowContext tree idx).map (fun n => (childrenTag n "div").length)).sum + 1

/-- The per-category sequence of `_parse`, with the loop run to its exit. -/
def parseCat (tree : HNode) (idx : Nat) : List PatchEntry :=
  probeLoop tree idx (patchRowBound tree idx) 1

/-- The `mapping` dict of `_parse` (main.py 360); other keys never reach it
because `cats` only holds the three category names. -/
def catIdx : String → Nat
  | "buffed" => 1
  | "nerfed" => 2
  | "adjusted" => 3
  | _ => 0

/-- `LolalyticsClient.patch_notes` (main.py 344-382): the category-enum
check precedes every other step. -/
def patch_notes (base_url : String) (fetch : String → Except PyErr HNode)
    (category rank : String) : Except PyErr (List (String × List PatchEntry)) := do
  if category ∉ (["all", "buffed", "nerfed", "adjusted"] : List String) then
    throw (.valueError "category must be one of 'all', 'buffed', 'nerfed', 'adjusted'")
  let url ← _build_url base_url "" "" rank
  let tree ← fetch url
  let cats := if category = "all" then ["buffed", "nerfed", "adjusted"] else [category]
  pure (cats.map (fun c => (c, parseCat tree (catIdx c))))

/-! ### Concrete fixture documents and small utilities used by the theorems -/

/-- The successful branch of a lookup, as an Option. -/
def exceptToOption {ε α : Type} : Except ε α → Option α
  | .ok a => some a
  | .error _ => none

/-- A fixture tier-list row: six `div` columns (so no 8th, PBI, column),
with the rank in `div[1]`, an anchor in `div[3]`, the tier in `div[4]` and
the winrate span under `div[6]/div`. -/
def sampleRow : HNode :=
  HNode.mk "div" "row" [
    HNode.mk "div" "1" [],
    HNode.mk "div" "x" [],
    HNode.mk "div" "Aatrox" [HNode.mk "a" "Aatrox" []],
    HNode.mk "div" "S+" [],
    HNode.mk "div" "x" [],
    HNode.mk "div" "52.1" [HNode.mk "div" "52.1" [HNode.mk "span" "52.1" []]]]

/-- A fixture document whose `main` has six `div` children, the sixth being
the tier-list container with `sampleRow` as its third row. -/
def sampleDoc : HNode :=
  HNode.mk "root" "" [HNode.mk "html" "" [HNode.mk "body" "" [HNode.mk "main" "" [
    HNode.mk "div" "" [], HNode.mk "div" "" [], HNode.mk "div" "" [],
    HNode.mk "div" "" [], HNode.mk "div" "" [],
    HNode.mk "div" "" [HNode.mk "div" "" [], HNode.mk "div" "" [], sampleRow]]]]]

/-! ### Instances and helper lemmas -/

instance {ε α : Type} [DecidableEq ε] [DecidableEq α] : DecidableEq (Except ε α) := fun a b =>
  match a, b with
  | .ok x, .ok y =>
    if h : x = y then .isTrue (by rw [h]) else .isFalse (fun hh => h (by injection hh))
  | .error x, .error y =>
    if h : x = y then .isTrue (by rw [h]) else .isFalse (fun hh => h (by injection hh))
  | .ok _, .error _ => .isFalse (fun hh => Except.noConfusion hh)
  | .error _, .ok _ => .isFalse (fun hh => Except.noConfusion hh)

@[simp] lemma ok_bind {α β : Type} (a : α) (k : α → Except PyErr β) :
    (Except.ok a >>= k) = k a := rfl

@[simp] lemma err_bind {α β : Type} (e : PyErr) (k : α → Except PyErr β) :
    ((Except.error e : Except PyErr α) >>= k) = .error e := rfl

/-! ### Claim theorems -/

/-- C1 (code bug): the spec's idempotence invariant — every canonical token
appearing as a value of the rank or lane tables normalizes to itself — is
broken by the code at exactly one token: `"platinum_plus"` occurs as a
value of `display_ranks` (e.g. under the key `"platinum+"`), yet the table
has no `"platinum_plus"` key (unlike every other `_plus` tier), so
`_map_rank "platinum_plus"` raises `InvalidRank` instead of returning the
token.  The lane table, by contrast, satisfies the invariant in full. -/
theorem c1_platinum_plus_gap :
    ("platinum+", "platinum_plus") ∈ display_ranks ∧
    _map_rank "platinum_plus" = .error (.invalidRank "platinum_plus") ∧
    ∀ p ∈ display_lanes, _map_lane p.2 = .ok p.2 :=
  ⟨by decide, rfl, by decide⟩

/-- C2 (counterexample): the claim says normalizing `"grandm"` yields
`"grandmaster_plus"`; the table maps `"grandm"` to `"grandmaster"`. -/
theorem c2_grandm_cex :
    _map_rank "grandm" ≠ .ok "grandmaster_plus" ∧ _map_rank "grandm" = .ok "grandmaster" :=
  ⟨by decide, rfl⟩

/-- C2 (amended): `"gm+"` and `"grandmaster+"` normalize to
`"grandmaster_plus"`, while `"grandm"` normalizes to `"grandmaster"`;
each of `"jg"`, `"jng"`, `"jungle"` normalizes to `"jungle"`. -/
theorem c2_shorthand_amended :
    _map_rank "gm+" = .ok "grandmaster_plus" ∧
    _map_rank "grandmaster+" = .ok "grandmaster_plus" ∧
    _map_rank "grandm" = .ok "grandmaster" ∧
    _map_lane "jg" = .ok "jungle" ∧
    _map_lane "jng" = .ok "jungle" ∧
    _map_lane "jungle" = .ok "jungle" :=
  ⟨rfl, rfl, rfl, rfl, rfl, rfl⟩

/-- C3: with the client's normalized base `"https://x.test/"`,
`_build_url "lol/tierlist/" lane="top" rank="gm+"` is exactly the stated
string, lane parameter before tier.  `_build_url` is a pure function of
its four string arguments, so identical inputs give a byte-identical URL
by construction. -/
theorem c3_url_deterministic :
    _build_url (clientBase "https://x.test/") "lol/tierlist/" "top" "gm+"
      = .ok "https://x.test/lol/tierlist/?lane=top&tier=grandmaster_plus" := rfl

/-- C6 (counterexample): with physical=15708, magic=1862, true=1073 the
component sum is 18643, not 18646; when the total is derived as that sum
(absent Total node, `_int_from_xpath` gives 0 and `pyOr` falls back), the
physical percentage is "84.3%", refuting the claim's "84.2%" for the
derived-total reading. -/
theorem c6_sum_derived_cex :
    (damage_info 15708 1862 1073
        (pyOr (_int_from_xpath []) (15708 + 1862 + 1073))).physical_pct = "84.3%" ∧
    "84.3%" ≠ "84.2%" :=
  ⟨rfl, by decide⟩

/-- C6 (amended): when the Total Damage node reads 18,646 the percentages
are "84.2%", "10.0%", "5.8%"; when the total is instead derived as the
component sum (= 18643) the physical percentage becomes "84.3%" while the
magic and true percentages are unchanged. -/
theorem c6_damage_pct_amended :
    (damage_info 15708 1862 1073
        (pyOr (_int_from_xpath [HNode.mk "div" "18,646" []]) (15708 + 1862 + 1073))).physical_pct
      = "84.2%" ∧
    (damage_info 15708 1862 1073
        (pyOr (_int_from_xpath [HNode.mk "div" "18,646" []]) (15708 + 1862 + 1073))).magic_pct
      = "10.0%" ∧
    (damage_info 15708 1862 1073
        (pyOr (_int_from_xpath [HNode.mk "div" "18,646" []]) (15708 + 1862 + 1073))).true_pct
      = "5.8%" ∧
    (damage_info 15708 1862 1073
        (pyOr (_int_from_xpath []) (15708 + 1862 + 1073))).physical_pct = "84.3%" ∧
    (damage_info 15708 1862 1073
        (pyOr (_int_from_xpath []) (15708 + 1862 + 1073))).magic_pct = "10.0%" ∧
    (damage_info 15708 1862 1073
        (pyOr (_int_from_xpath []) (15708 + 1862 + 1073))).true_pct = "5.8%" :=
  ⟨rfl, rfl, rfl, rfl, rfl, rfl⟩

/-- C7: `_pct` is a total function (the embedding assigns every input a
string, mirroring that the Python never raises: the `whole <= 0` guard
answers "0%" before the division, and the division — the only faulting
sub-expression, modelled by `pctDiv` — is always defined away from a zero
denominator); in particular every non-positive denominator, `(0, 0)`
included, yields "0%". -/
theorem c7_pct_never_faults (part whole : Int) :
    (whole ≤ 0 → _pct part whole = "0%") ∧
    (whole ≠ 0 → (pctDiv part whole).isSome = true) ∧
    _pct 0 0 = "0%" := by
  refine ⟨fun h => ?_, fun h => ?_, rfl⟩
  · unfold _pct
    rw [if_pos h]
  · unfold pctDiv
    rw [if_neg h]
    rfl

/-- C10: whenever the Total Damage parse yields 0 — the node list is empty
(absent), the text is unparseable, or the node holds a literal 0 — the
reported total is the component sum `phys + mag + tru`, via Python's `or`
falsiness on the integer 0. -/
theorem c10_total_fallback (totalNodes : List HNode) (phys mag tru : Nat)
    (h : _int_from_xpath totalNodes = 0) :
    pyOr (_int_from_xpath totalNodes) (phys + mag + tru) = phys + mag + tru ∧
    _int_from_xpath [] = 0 ∧
    _int_from_xpath [HNode.mk "div" "N/A" []] = 0 ∧
    _int_from_xpath [HNode.mk "div" "0" []] = 0 := by
  refine ⟨?_, rfl, rfl, rfl⟩
  rw [h]
  rfl

/-- C10 witness: a present Total node holding 0 is overridden by the
component sum of the Viego figures. -/
theorem c10_total_fallback_witness :
    pyOr (_int_from_xpath [HNode.mk "div" "0" []]) (15708 + 1862 + 1073)
      = 15708 + 1862 + 1073 ∧
    _int_from_xpath [] = 0 ∧
    _int_from_xpath [HNode.mk "div" "N/A" []] = 0 ∧
    _int_from_xpath [HNode.mk "div" "0" []] = 0 :=
  c10_total_fallback [HNode.mk "div" "0" []] 15708 1862 1073 rfl

/-- C4 (counterexample): hard-field misses surface as Python's bare
`IndexError`.  A rank-column miss on row 3, any miss on row 7, a counters
champion miss on row 1 and a matchup winrate miss all produce the
*identical* error value, which therefore carries neither the missing
field's name nor its row index. -/
theorem c4_untyped_cex :
    tierRowAt (HNode.mk "root" "" []) 3 = .error .indexError ∧
    tierRowAt (HNode.mk "root" "" []) 7 = tierRowAt (HNode.mk "root" "" []) 3 ∧
    counterRowAt (HNode.mk "root" "" []) 1 = .error .indexError ∧
    matchupExtract (HNode.mk "root" "" []) = .error .indexError :=
  ⟨rfl, rfl, rfl, rfl⟩

/-- C4 (amended): when any hard field of a tier-list row, a counters row,
or the matchup extraction cannot be located at its structural position,
the extraction fails — but with the untyped positional `IndexError`,
which identifies no field and no row. -/
theorem c4_hard_miss_amended (tree : HNode) (i : Nat) :
    (xpathEval tree (rank_xpath i) = [] ∨ xpathEval tree (champion_xpath i) = [] ∨
        xpathEval tree (tier_xpath i) = [] ∨ xpathEval tree (winrate_xpath i) = [] →
      tierRowAt tree i = .error .indexError) ∧
    (xpathEval tree (counters_champion_xpath i) = [] ∨
        xpathEval tree (counters_winrate_xpath i) = [] →
      counterRowAt tree i = .error .indexError) ∧
    (xpathEval tree matchup_winrate_xpath = [] ∨ xpathEval tree matchup_games_xpath = [] →
      matchupExtract tree = .error .indexError) := by
  refine ⟨fun h => ?_, fun h => ?_, fun h => ?_⟩
  · cases hx1 : xpathEval tree (rank_xpath i) <;>
      cases hx2 : xpathEval tree (champion_xpath i) <;>
        cases hx3 : xpathEval tree (tier_xpath i) <;>
          cases hx4 : xpathEval tree (winrate_xpath i) <;>
            rcases h with h | h | h | h <;>
              simp_all [tierRowAt, firstNode]
  · cases hx1 : xpathEval tree (counters_champion_xpath i) <;>
      cases hx2 : xpathEval tree (counters_winrate_xpath i) <;>
        rcases h with h | h <;>
          simp_all [counterRowAt, firstNode]
  · cases hx1 : xpathEval tree matchup_winrate_xpath <;>
      cases hx2 : xpathEval tree matchup_games_xpath <;>
        rcases h with h | h <;>
          simp_all [matchupExtract, firstNode]

/-- C5: the empty-champion checks of `get_counters`, `get_champion_data`
and `matchup`, and the category-enum check of `patch_notes`, all fail with
their ValueError before anything else runs: the result is the validation
error for *every* fetcher `fetch`, i.e. the page fetcher is never
consulted. -/
theorem c5_validation_before_fetch (base : String) (fetch : String → Except PyErr HNode)
    (n : Nat) (c other lane rank cat : String)
    (hcat : cat ∉ (["all", "buffed", "nerfed", "adjusted"] : List String)) :
    get_counters base fetch n "" rank = .error (.valueError "Champion name cannot be empty") ∧
    get_champion_data base fetch "" lane rank
      = .error (.valueError "Champion name cannot be empty") ∧
    matchup base fetch "" other lane rank
      = .error (.valueError "Champion names cannot be empty") ∧
    matchup base fetch c "" lane rank
      = .error (.valueError "Champion names cannot be empty") ∧
    patch_notes base fetch cat rank
      = .error (.valueError "category must be one of 'all', 'buffed', 'nerfed', 'adjusted'") := by
  refine ⟨rfl, rfl, rfl, ?_, ?_⟩
  · unfold matchup
    rw [if_pos (Or.inr rfl)]
    rfl
  · unfold patch_notes
    rw [if_pos hcat]
    rfl

/-- C5 witness: a stub fetcher, an empty champion and the category
"bogus". -/
theorem c5_validation_before_fetch_witness :
    get_counters "https://lolalytics.com/" (fun _ => Except.error PyErr.indexError) 10 "" ""
      = .error (.valueError "Champion name cannot be empty") ∧
    patch_notes "https://lolalytics.com/" (fun _ => Except.error PyErr.indexError) "bogus" ""
      = .error (.valueError "category must be one of 'all', 'buffed', 'nerfed', 'adjusted'") := by
  have h := c5_validation_before_fetch "https://lolalytics.com/"
    (fun _ => Except.error PyErr.indexError) 10 "x" "y" "" "" "bogus" (by decide)
  exact ⟨h.1, h.2.2.2.2⟩

/-- C8: on any document and row where the four hard lookups succeed but the
PBI lookup selects nothing, the row is produced intact with `pbi = ""`:
the absent soft field alone never fails the row. -/
theorem c8_pbi_soft_default (tree : HNode) (i : Nat) (r c t w : HNode)
    (hr : firstNode (xpathEval tree (rank_xpath i)) = .ok r)
    (hc : firstNode (xpathEval tree (champion_xpath i)) = .ok c)
    (ht : firstNode (xpathEval tree (tier_xpath i)) = .ok t)
    (hw : firstNode (xpathEval tree (winrate_xpath i)) = .ok w)
    (hp : xpathEval tree (pbi_xpath i) = []) :
    tierRowAt tree i
      = .ok ⟨pyStrip r.content, pyStrip c.content, pyStrip t.content, pyStrip w.content, ""⟩ := by
  unfold tierRowAt
  rw [hr, hc, ht, hw, hp]
  rfl

/-- C8 witness: `sampleDoc`'s third row has no 8th column; the row comes
back whole with an empty `pbi`. -/
theorem c8_pbi_soft_default_witness :
    tierRowAt sampleDoc 3 = .ok ⟨"1", "Aatrox", "S+", "52.1", ""⟩ :=
  c8_pbi_soft_default sampleDoc 3
    (HNode.mk "div" "1" []) (HNode.mk "a" "Aatrox" [])
    (HNode.mk "div" "S+" []) (HNode.mk "span" "52.1" [])
    rfl rfl rfl rfl rfl

lemma evalStep_nil (s : Step) : evalStep [] s = [] := by cases s <;> rfl

lemma foldl_evalStep_nil (p : List Step) : p.foldl evalStep [] = [] := by
  induction p with
  | nil => rfl
  | cons s p ih => rw [List.foldl_cons, evalStep_nil, ih]

lemma evalStep_nth_big (tag : String) (k : Nat) :
    ∀ l : List HNode, (∀ n ∈ l, (childrenTag n tag).length < k) →
      evalStep l (.nth tag k) = [] := by
  intro l
  induction l with
  | nil => intro _; rfl
  | cons n ns ih =>
    intro h
    have hn := h n (List.mem_cons_self n ns)
    have hd : (childrenTag n tag).drop (k - 1) = [] := by
      apply List.drop_eq_nil_of_le
      omega
    simp only [evalStep, hd, List.take_nil, List.nil_append]
    exact ih (fun m hm => h m (List.mem_cons_of_mem _ hm))

lemma xpath_append (tree : HNode) (p q : List Step) :
    xpathEval tree (p ++ q) = q.foldl evalStep (xpathEval tree p) := by
  simp [xpathEval, List.foldl_append]

lemma patch_base_bound (tree : HNode) (idx : Nat) :
    xpathEval tree (patch_base idx (patchRowBound tree idx)) = [] := by
  rw [patch_base, xpath_append]
  simp only [List.foldl_cons, List.foldl_nil]
  apply evalStep_nth_big
  intro n hn
  have hmem : (childrenTag n "div").length
      ∈ (patchRowContext tree idx).map (fun m => (childrenTag m "div").length) :=
    List.mem_map_of_mem _ hn
  have hle : (childrenTag n "div").length
      ≤ ((patchRowContext tree idx).map (fun m => (childrenTag m "div").length)).sum :=
    List.single_le_sum (fun x _ => Nat.zero_le x) _ hmem
  unfold patchRowBound
  omega

lemma patchRow_miss_bound (tree : HNode) (idx : Nat) :
    patchRowAt tree idx (patchRowBound tree idx) = .error .indexError := by
  have hc : xpathEval tree (patch_champion_xpath idx (patchRowBound tree idx)) = [] := by
    rw [patch_champion_xpath, xpath_append, patch_base_bound, foldl_evalStep_nil]
  unfold patchRowAt
  rw [hc]
  rfl

lemma patchRowAt_ok_or_ix (tree : HNode) (idx i : Nat) :
    (∃ e, patchRowAt tree idx i = .ok e) ∨ patchRowAt tree idx i = .error .indexError := by
  cases h1 : xpathEval tree (patch_champion_xpath idx i) <;>
    cases h2 : xpathEval tree (patch_winrate_xpath idx i) <;>
      cases h3 : xpathEval tree (patch_pickrate_xpath idx i) <;>
        cases h4 : xpathEval tree (patch_banrate_xpath idx i) <;>
          simp [patchRowAt, h1, h2, h3, h4, firstNode]

lemma probeLoop_spec (tree : HNode) (idx : Nat) :
    ∀ (d i fuel : Nat), patchRowAt tree idx (i + d) = .error .indexError →
      (∀ k, k < d → ∃ e, patchRowAt tree idx (i + k) = .ok e) →
      d ≤ fuel →
      probeLoop tree idx fuel i
        = (List.range' i d).filterMap (fun j => exceptToOption (patchRowAt tree idx j)) := by
  intro d
  induction d with
  | zero =>
    intro i fuel hmiss _ _
    rw [Nat.add_zero] at hmiss
    cases fuel with
    | zero => rfl
    | succ f => simp [probeLoop, hmiss]
  | succ d ih =>
    intro i fuel hmiss hhits hf
    obtain ⟨e, he⟩ := hhits 0 (Nat.succ_pos d)
    rw [Nat.add_zero] at he
    cases fuel with
    | zero => omega
    | succ f =>
      have hstep : probeLoop tree idx (f + 1) i = e :: probeLoop tree idx f (i + 1) := by
        simp [probeLoop, he]
      have hmiss2 : patchRowAt tree idx (i + 1 + d) = .error .indexError := by
        have hi : i + 1 + d = i + (d + 1) := by omega
        rw [hi]
        exact hmiss
      have hhits2 : ∀ k, k < d → ∃ e2, patchRowAt tree idx (i + 1 + k) = .ok e2 := by
        intro k hk
        have hi : i + 1 + k = i + (k + 1) := by omega
        rw [hi]
        exact hhits (k + 1) (by omega)
      rw [hstep, ih (i + 1) f hmiss2 hhits2 (by omega)]
      have hr : List.range' i (d + 1) = i :: List.range' (i + 1) d := rfl
      rw [hr, List.filterMap_cons]
      simp [he, exceptToOption]

/-- C9: on every document (all trees of the model are finite), each
category's probe loop of `patch_notes._parse` terminates: there is a first
row index `m` where the positional lookup misses (with plain `IndexError`,
the loop's normal break — never a propagated error), every earlier row
probes successfully, and any fuel at least `m - 1` makes the loop yield
exactly the entries of the consecutive rows `1 .. m - 1`. -/
theorem c9_probe_terminates (tree : HNode) (idx : Nat) :
    ∃ m, 0 < m ∧ patchRowAt tree idx m = .error .indexError ∧
      (∀ j, 0 < j → j < m → ∃ e, patchRowAt tree idx j = .ok e) ∧
      ∀ fuel, m - 1 ≤ fuel →
        probeLoop tree idx fuel 1
          = (List.range' 1 (m - 1)).filterMap (fun j => exceptToOption (patchRowAt tree idx j)) := by
  have hP : ∃ j, patchRowAt tree idx (j + 1) = .error .indexError := by
    refine ⟨patchRowBound tree idx - 1, ?_⟩
    have hb : patchRowBound tree idx - 1 + 1 = patchRowBound tree idx := by
      unfold patchRowBound
      omega
    rw [hb]
    exact patchRow_miss_bound tree idx
  refine ⟨Nat.find hP + 1, Nat.succ_pos _, Nat.find_spec hP, ?_, ?_⟩
  · intro j hj0 hjm
    have hlt : j - 1 < Nat.find hP := by omega
    have hne := Nat.find_min hP hlt
    have hj : j - 1 + 1 = j := by omega
    rw [hj] at hne
    rcases patchRowAt_ok_or_ix tree idx j with h | h
    · exact h
    · exact absurd h hne
  · intro fuel hf
    have hm : Nat.find hP + 1 - 1 = Nat.find hP := by omega
    rw [hm] at hf ⊢
    have hmiss : patchRowAt tree idx (1 + Nat.find hP) = .error .indexError := by
      rw [Nat.add_comm]
      exact Nat.find_spec hP
    have hhits : ∀ k, k < Nat.find hP → ∃ e, patchRowAt tree idx (1 + k) = .ok e := by
      intro k hk
      have hne := Nat.find_min hP hk
      rw [Nat.add_comm]
      rcases patchRowAt_ok_or_ix tree idx (k + 1) with h | h
      · exact h
      · exact absurd h hne
    exact probeLoop_spec tree idx (Nat.find hP) 1 fuel hmiss hhits hf

end Lolalytico
